import Mathlib

/-!
Shallow embedding of the daytona-adk-plugin adapter layer
(src/daytona_adk/tools.py and src/daytona_adk/plugin.py).

The five tool classes and the plugin are modelled as Lean structures; the
external Daytona sandbox client is modelled as a record of oracle functions
returning `Except Fault _` (the provider may fail any call).  Each
`run_async` returns the result mapping together with the list of sandbox
calls it issued, so that properties such as "no remote call is made" are
statable.  Python `str.encode("utf-8")` / `bytes.decode("utf-8")` are
modelled by an explicit executable UTF-8 codec over `List Nat` byte values.
-/

/-- UTF-8 encoding of a single Unicode code point, as produced by Python
`str.encode("utf-8")` for one character. -/
def utf8EncodeCp (n : Nat) : List Nat :=
  if n < 128 then [n]
  else if n < 2048 then [192 + n / 64, 128 + n % 64]
  else if n < 65536 then [224 + n / 4096, 128 + n / 64 % 64, 128 + n % 64]
  else [240 + n / 262144, 128 + n / 4096 % 64, 128 + n / 64 % 64, 128 + n % 64]

/-- UTF-8 encoding of a string: Python `s.encode("utf-8")` as a byte list. -/
def utf8Encode (s : String) : List Nat :=
  s.data.flatMap (fun c => utf8EncodeCp c.toNat)

/-- Strict UTF-8 decoding to a code-point list, rejecting continuation-byte
starts, overlong forms, surrogates and out-of-range values, as Python
`bytes.decode("utf-8")` does. -/
def utf8DecodeCps : List Nat → Option (List Nat)
  | [] => some []
  | b :: bs =>
    if b < 128 then
      (utf8DecodeCps bs).map (fun l => b :: l)
    else
      match bs with
      | [] => none
      | b1 :: bs1 =>
        if b < 224 then
          if 194 ≤ b ∧ 128 ≤ b1 ∧ b1 < 192 then
            (utf8DecodeCps bs1).map (fun l => ((b - 192) * 64 + (b1 - 128)) :: l)
          else none
        else
          match bs1 with
          | [] => none
          | b2 :: bs2 =>
            if b < 240 then
              if 128 ≤ b1 ∧ b1 < 192 ∧ 128 ≤ b2 ∧ b2 < 192 ∧
                  2048 ≤ (b - 224) * 4096 + (b1 - 128) * 64 + (b2 - 128) ∧
                  ¬ (55296 ≤ (b - 224) * 4096 + (b1 - 128) * 64 + (b2 - 128) ∧
                     (b - 224) * 4096 + (b1 - 128) * 64 + (b2 - 128) < 57344) then
                (utf8DecodeCps bs2).map
                  (fun l => ((b - 224) * 4096 + (b1 - 128) * 64 + (b2 - 128)) :: l)
              else none
            else
              match bs2 with
              | [] => none
              | b3 :: bs3 =>
                if b < 245 ∧ 128 ≤ b1 ∧ b1 < 192 ∧ 128 ≤ b2 ∧ b2 < 192 ∧
                    128 ≤ b3 ∧ b3 < 192 ∧
                    65536 ≤ (b - 240) * 262144 + (b1 - 128) * 4096 + (b2 - 128) * 64 + (b3 - 128) ∧
                    (b - 240) * 262144 + (b1 - 128) * 4096 + (b2 - 128) * 64 + (b3 - 128)
                      < 1114112 then
                  (utf8DecodeCps bs3).map
                    (fun l =>
                      ((b - 240) * 262144 + (b1 - 128) * 4096 + (b2 - 128) * 64 + (b3 - 128)) :: l)
                else none

/-- Strict UTF-8 decoding to a string: Python `bytes.decode("utf-8")`. -/
def utf8Decode (bs : List Nat) : Option String :=
  (utf8DecodeCps bs).map (fun cps => ⟨cps.map Char.ofNat⟩)

theorem utf8DecodeCps_two (b b1 : Nat) (rest : List Nat)
    (hb : 194 ≤ b) (hb' : b < 224) (h1 : 128 ≤ b1) (h1' : b1 < 192) :
    utf8DecodeCps (b :: b1 :: rest)
      = (utf8DecodeCps rest).map (fun l => ((b - 192) * 64 + (b1 - 128)) :: l) := by
  rw [utf8DecodeCps.eq_def]
  dsimp only
  rw [if_neg (show ¬ b < 128 by omega), if_pos (show b < 224 by omega),
    if_pos (show 194 ≤ b ∧ 128 ≤ b1 ∧ b1 < 192 from ⟨hb, h1, h1'⟩)]

theorem utf8DecodeCps_three (b b1 b2 : Nat) (rest : List Nat)
    (hb : 224 ≤ b) (hb' : b < 240) (h1 : 128 ≤ b1) (h1' : b1 < 192)
    (h2 : 128 ≤ b2) (h2' : b2 < 192)
    (hlo : 2048 ≤ (b - 224) * 4096 + (b1 - 128) * 64 + (b2 - 128))
    (hsur : ¬ (55296 ≤ (b - 224) * 4096 + (b1 - 128) * 64 + (b2 - 128) ∧
               (b - 224) * 4096 + (b1 - 128) * 64 + (b2 - 128) < 57344)) :
    utf8DecodeCps (b :: b1 :: b2 :: rest)
      = (utf8DecodeCps rest).map
          (fun l => ((b - 224) * 4096 + (b1 - 128) * 64 + (b2 - 128)) :: l) := by
  rw [utf8DecodeCps.eq_def]
  dsimp only
  rw [if_neg (show ¬ b < 128 by omega), if_neg (show ¬ b < 224 by omega),
    if_pos (show b < 240 by omega),
    if_pos (show 128 ≤ b1 ∧ b1 < 192 ∧ 128 ≤ b2 ∧ b2 < 192 ∧
        2048 ≤ (b - 224) * 4096 + (b1 - 128) * 64 + (b2 - 128) ∧
        ¬ (55296 ≤ (b - 224) * 4096 + (b1 - 128) * 64 + (b2 - 128) ∧
           (b - 224) * 4096 + (b1 - 128) * 64 + (b2 - 128) < 57344)
      from ⟨h1, h1', h2, h2', hlo, hsur⟩)]

theorem utf8DecodeCps_four (b b1 b2 b3 : Nat) (rest : List Nat)
    (hb : 240 ≤ b) (hb' : b < 245) (h1 : 128 ≤ b1) (h1' : b1 < 192)
    (h2 : 128 ≤ b2) (h2' : b2 < 192) (h3 : 128 ≤ b3) (h3' : b3 < 192)
    (hlo : 65536 ≤ (b - 240) * 262144 + (b1 - 128) * 4096 + (b2 - 128) * 64 + (b3 - 128))
    (hhi : (b - 240) * 262144 + (b1 - 128) * 4096 + (b2 - 128) * 64 + (b3 - 128) < 1114112) :
    utf8DecodeCps (b :: b1 :: b2 :: b3 :: rest)
      = (utf8DecodeCps rest).map
          (fun l => ((b - 240) * 262144 + (b1 - 128) * 4096 + (b2 - 128) * 64 + (b3 - 128)) :: l) := by
  rw [utf8DecodeCps.eq_def]
  dsimp only
  rw [if_neg (show ¬ b < 128 by omega), if_neg (show ¬ b < 224 by omega),
    if_neg (show ¬ b < 240 by omega),
    if_pos (show b < 245 ∧ 128 ≤ b1 ∧ b1 < 192 ∧ 128 ≤ b2 ∧ b2 < 192 ∧ 128 ≤ b3 ∧ b3 < 192 ∧
        65536 ≤ (b - 240) * 262144 + (b1 - 128) * 4096 + (b2 - 128) * 64 + (b3 - 128) ∧
        (b - 240) * 262144 + (b1 - 128) * 4096 + (b2 - 128) * 64 + (b3 - 128) < 1114112
      from ⟨hb', h1, h1', h2, h2', h3, h3', hlo, hhi⟩)]

theorem utf8DecodeCps_encodeCp (n : Nat)
    (hv : n < 55296 ∨ (57343 < n ∧ n < 1114112)) (rest : List Nat) :
    utf8DecodeCps (utf8EncodeCp n ++ rest)
      = (utf8DecodeCps rest).map (fun l => n :: l) := by
  by_cases hn1 : n < 128
  · rw [show utf8EncodeCp n = [n] from by rw [utf8EncodeCp, if_pos hn1]]
    simp only [List.cons_append, List.nil_append]
    rw [utf8DecodeCps.eq_def]
    dsimp only
    rw [if_pos hn1]
  · by_cases hn2 : n < 2048
    · rw [show utf8EncodeCp n = [192 + n / 64, 128 + n % 64] from by
        rw [utf8EncodeCp, if_neg hn1, if_pos hn2]]
      simp only [List.cons_append, List.nil_append]
      rw [utf8DecodeCps_two _ _ _ (by omega) (by omega) (by omega) (by omega)]
      have e : (192 + n / 64 - 192) * 64 + (128 + n % 64 - 128) = n := by omega
      rw [e]
    · by_cases hn3 : n < 65536
      · rw [show utf8EncodeCp n = [224 + n / 4096, 128 + n / 64 % 64, 128 + n % 64] from by
          rw [utf8EncodeCp, if_neg hn1, if_neg hn2, if_pos hn3]]
        simp only [List.cons_append, List.nil_append]
        rw [utf8DecodeCps_three _ _ _ _ (by omega) (by omega) (by omega) (by omega)
          (by omega) (by omega) (by omega) (by omega)]
        have e : (224 + n / 4096 - 224) * 4096 + (128 + n / 64 % 64 - 128) * 64 +
            (128 + n % 64 - 128) = n := by omega
        rw [e]
      · rw [show utf8EncodeCp n
            = [240 + n / 262144, 128 + n / 4096 % 64, 128 + n / 64 % 64, 128 + n % 64] from by
          rw [utf8EncodeCp, if_neg hn1, if_neg hn2, if_neg hn3]]
        simp only [List.cons_append, List.nil_append]
        rw [utf8DecodeCps_four _ _ _ _ _ (by omega) (by omega) (by omega) (by omega)
          (by omega) (by omega) (by omega) (by omega) (by omega) (by omega)]
        have e : (240 + n / 262144 - 240) * 262144 + (128 + n / 4096 % 64 - 128) * 4096 +
            (128 + n / 64 % 64 - 128) * 64 + (128 + n % 64 - 128) = n := by omega
        rw [e]

theorem utf8DecodeCps_encodeList (cs : List Char) (rest : List Nat) :
    utf8DecodeCps ((cs.flatMap (fun c => utf8EncodeCp c.toNat)) ++ rest)
      = (utf8DecodeCps rest).map (fun l => cs.map Char.toNat ++ l) := by
  induction cs with
  | nil =>
    simp only [List.flatMap_nil, List.nil_append, List.map_nil]
    cases utf8DecodeCps rest <;> simp
  | cons c cs ih =>
    have hv : c.toNat < 55296 ∨ (57343 < c.toNat ∧ c.toNat < 1114112) := by
      have h : c.val.toNat.isValidChar := c.valid
      have e : c.toNat = c.val.toNat := rfl
      rcases h with h | ⟨h1, h2⟩
      · exact Or.inl (by omega)
      · exact Or.inr (by omega)
    simp only [List.flatMap_cons, List.append_assoc, List.map_cons]
    rw [utf8DecodeCps_encodeCp c.toNat hv, ih]
    cases utf8DecodeCps rest <;> simp

/-- Python-level round trip: decoding the UTF-8 encoding of a string gives
back the string. -/
theorem utf8Decode_encode (s : String) : utf8Decode (utf8Encode s) = some s := by
  have h := utf8DecodeCps_encodeList s.data []
  rw [List.append_nil] at h
  rw [utf8Decode, utf8Encode, h]
  have h0 : utf8DecodeCps [] = some [] := rfl
  rw [h0]
  simp only [Option.map_some', List.append_nil, List.map_map]
  rw [show (Char.ofNat ∘ Char.toNat) = id from funext (fun c => Char.ofNat_toNat c),
    List.map_id]

/-- A JSON-like value appearing in a tool result mapping (Python dict values:
strings, integers, booleans and None). -/
inductive Value where
  | str (s : String)
  | int (n : Int)
  | bool (b : Bool)
  | null
deriving DecidableEq

/-- A tool result mapping, Python `Dict[str, Any]`, as an association list in
insertion order. -/
abbrev ToolResult := List (String × Value)

/-- An exception raised by the underlying sandbox client; `msg` is Python
`str(e)`. -/
structure Fault where
  msg : String
deriving DecidableEq

/-- `daytona.CodeRunParams(env=..., argv=...)`. -/
structure CodeRunParams where
  env : Option (List (String × String))
  argv : Option (List String)
deriving DecidableEq

/-- `daytona.SessionExecuteRequest(command=..., runAsync=...)`. -/
structure SessionExecuteRequest where
  command : String
  runAsync : Bool
deriving DecidableEq

/-- Response of `sandbox.process.code_run` / `sandbox.process.exec`. -/
structure ExecResponse where
  result : String
  exit_code : Int
deriving DecidableEq

/-- Response of `sandbox.process.execute_session_command`. -/
structure SessionResponse where
  output : Option String
  exit_code : Int
deriving DecidableEq

/-- One call issued to the sandbox client, recorded in a trace. -/
inductive SandboxCall where
  | code_run (code : String) (params : Option CodeRunParams) (timeout : Option Int)
  | exec (command : String) (cwd : Option String) (env : Option (List (String × String)))
      (timeout : Option Int)
  | upload_file (bytes : List Nat) (path : String)
  | download_file (path : String)
  | delete_file (path : String)
  | create_session (session_id : String)
  | execute_session_command (session_id : String) (request : SessionExecuteRequest)
      (timeout : Option Int)
deriving DecidableEq

/-- Oracle model of the external Daytona sandbox client: every operation
either returns a response or raises a `Fault`. -/
structure SandboxBehavior where
  code_run : String → Option CodeRunParams → Option Int → Except Fault ExecResponse
  exec : String → Option String → Option (List (String × String)) → Option Int →
      Except Fault ExecResponse
  upload_file : List Nat → String → Except Fault Unit
  download_file : String → Except Fault (List Nat)
  delete_file : String → Except Fault Unit
  create_session : String → Except Fault Unit
  execute_session_command : String → SessionExecuteRequest → Option Int →
      Except Fault SessionResponse

/-- Whether the behavior raises a fault on the given call. -/
def SandboxBehavior.callFaults (sb : SandboxBehavior) : SandboxCall → Bool
  | .code_run code params timeout =>
    match sb.code_run code params timeout with
    | .ok _ => false
    | .error _ => true
  | .exec command cwd env timeout =>
    match sb.exec command cwd env timeout with
    | .ok _ => false
    | .error _ => true
  | .upload_file bytes path =>
    match sb.upload_file bytes path with
    | .ok _ => false
    | .error _ => true
  | .download_file path =>
    match sb.download_file path with
    | .ok _ => false
    | .error _ => true
  | .delete_file path =>
    match sb.delete_file path with
    | .ok _ => false
    | .error _ => true
  | .create_session sessionId =>
    match sb.create_session sessionId with
    | .ok _ => false
    | .error _ => true
  | .execute_session_command sessionId request timeout =>
    match sb.execute_session_command sessionId request timeout with
    | .ok _ => false
    | .error _ => true

/-- Python truthiness of an optional dict (`if env or argv:`). -/
def pyTruthyDict (d : Option (List (String × String))) : Bool :=
  match d with
  | none => false
  | some l => !l.isEmpty

/-- Python truthiness of an optional list. -/
def pyTruthyList (l : Option (List String)) : Bool :=
  match l with
  | none => false
  | some xs => !xs.isEmpty

/-- Python truthiness of an optional string (`response.output if response.output
else ""`). -/
def pyTruthyStr (s : Option String) : Bool :=
  match s with
  | none => false
  | some x => !x.isEmpty

/-- The argument mapping `args : Dict[str, Any]` passed to `run_async`; an
absent key is `none` (`args.get(k, d)` is `(args.k).getD d`). -/
structure Args where
  code : Option String := none
  language : Option String := none
  env : Option (List (String × String)) := none
  argv : Option (List String) := none
  timeout : Option Int := none
  command : Option String := none
  cwd : Option String := none
  file_path : Option String := none
  content : Option String := none
deriving DecidableEq

/-- Python `str.lower()`, modelled as per-code-point lowercasing; the source
only compares the result against the ASCII language names. -/
def pyLower (s : String) : String :=
  ⟨s.data.map Char.toLower⟩

/-- `ExecuteCodeTool`: holds the shared sandbox and its CPython object
address, since the source interpolates `id(self)` into the script path. -/
structure ExecuteCodeTool where
  sandbox : SandboxBehavior
  id : Nat

/-- `ExecuteCodeTool.run_async` from src/daytona_adk/tools.py, returning the
result mapping and the trace of sandbox calls issued. -/
def ExecuteCodeTool.run_async (t : ExecuteCodeTool) (args : Args) :
    ToolResult × List SandboxCall :=
  let code := args.code.getD ""
  let language := pyLower (args.language.getD "python")
  let env := args.env
  let argv := args.argv
  let timeout := args.timeout
  if language = "python" then
    let params : Option CodeRunParams :=
      if pyTruthyDict env || pyTruthyList argv then some { env := env, argv := argv } else none
    match t.sandbox.code_run code params timeout with
    | .ok r =>
      ([("result", .str r.result), ("exit_code", .int r.exit_code)],
        [.code_run code params timeout])
    | .error e =>
      ([("error", .str e.msg), ("exit_code", .int (-1))],
        [.code_run code params timeout])
  else if language = "javascript" ∨ language = "typescript" then
    let ext := if language = "javascript" then "js" else "ts"
    let script_path := "/tmp/script_" ++ toString t.id ++ "." ++ ext
    let bytes := utf8Encode code
    match t.sandbox.upload_file bytes script_path with
    | .error e =>
      ([("error", .str e.msg), ("exit_code", .int (-1))],
        [.upload_file bytes script_path])
    | .ok _ =>
      let cmd0 :=
        if language = "javascript" then "node " ++ script_path
        else "ts-node --transpile-only --skipProject --compilerOptions " ++
          "'\x7b\"module\":\"commonjs\",\"moduleResolution\":\"node\"\x7d' " ++ script_path
      let cmd :=
        if pyTruthyList argv then cmd0 ++ " " ++ String.intercalate " " (argv.getD [])
        else cmd0
      match t.sandbox.exec cmd none env timeout with
      | .error e =>
        ([("error", .str e.msg), ("exit_code", .int (-1))],
          [.upload_file bytes script_path, .exec cmd none env timeout])
      | .ok r =>
        match t.sandbox.delete_file script_path with
        | .error e =>
          ([("error", .str e.msg), ("exit_code", .int (-1))],
            [.upload_file bytes script_path, .exec cmd none env timeout,
              .delete_file script_path])
        | .ok _ =>
          ([("result", .str r.result), ("exit_code", .int r.exit_code)],
            [.upload_file bytes script_path, .exec cmd none env timeout,
              .delete_file script_path])
  else
    ([("error", .str ("Unsupported language: " ++ language)), ("exit_code", .int (-1))], [])

/-- `ExecuteCommandTool`. -/
structure ExecuteCommandTool where
  sandbox : SandboxBehavior

/-- `ExecuteCommandTool.run_async` from src/daytona_adk/tools.py. -/
def ExecuteCommandTool.run_async (t : ExecuteCommandTool) (args : Args) :
    ToolResult × List SandboxCall :=
  let command := args.command.getD ""
  let cwd := args.cwd
  let env := args.env
  let timeout := args.timeout
  match t.sandbox.exec command cwd env timeout with
  | .ok r =>
    ([("result", .str r.result), ("exit_code", .int r.exit_code)],
      [.exec command cwd env timeout])
  | .error e =>
    ([("error", .str e.msg), ("exit_code", .int (-1))],
      [.exec command cwd env timeout])

/-- `UploadFileTool`. -/
structure UploadFileTool where
  sandbox : SandboxBehavior

/-- `UploadFileTool.run_async` from src/daytona_adk/tools.py. -/
def UploadFileTool.run_async (t : UploadFileTool) (args : Args) :
    ToolResult × List SandboxCall :=
  let file_path := args.file_path.getD ""
  let content := args.content.getD ""
  let content_bytes := utf8Encode content
  match t.sandbox.upload_file content_bytes file_path with
  | .ok _ =>
    ([("success", .bool true), ("path", .str file_path)],
      [.upload_file content_bytes file_path])
  | .error e =>
    ([("error", .str e.msg), ("success", .bool false)],
      [.upload_file content_bytes file_path])

/-- `ReadFileTool`. -/
structure ReadFileTool where
  sandbox : SandboxBehavior

/-- `ReadFileTool.run_async` from src/daytona_adk/tools.py.  A download that
returns bytes that are not valid UTF-8 raises inside the same `try`, so it is
folded into the failure branch; the message of that runtime fault is modelled
as a fixed string. -/
def ReadFileTool.run_async (t : ReadFileTool) (args : Args) :
    ToolResult × List SandboxCall :=
  let file_path := args.file_path.getD ""
  match t.sandbox.download_file file_path with
  | .ok content_bytes =>
    match utf8Decode content_bytes with
    | some content =>
      ([("content", .str content), ("path", .str file_path)],
        [.download_file file_path])
    | none =>
      ([("error", .str "UnicodeDecodeError"), ("content", .null)],
        [.download_file file_path])
  | .error e =>
    ([("error", .str e.msg), ("content", .null)],
      [.download_file file_path])

/-- `StartLongRunningCommandTool`: holds the shared sandbox and its CPython
object address, since the source interpolates `id(self)` into the session
id. -/
structure StartLongRunningCommandTool where
  sandbox : SandboxBehavior
  id : Nat

/-- `StartLongRunningCommandTool.run_async` from src/daytona_adk/tools.py. -/
def StartLongRunningCommandTool.run_async (t : StartLongRunningCommandTool) (args : Args) :
    ToolResult × List SandboxCall :=
  let command := args.command.getD ""
  let timeout := args.timeout
  let session_id := "long-running-" ++ toString t.id
  match t.sandbox.create_session session_id with
  | .error e =>
    ([("error", .str e.msg), ("exit_code", .int (-1))],
      [.create_session session_id])
  | .ok _ =>
    let request : SessionExecuteRequest := { command := command, runAsync := true }
    match t.sandbox.execute_session_command session_id request timeout with
    | .error e =>
      ([("error", .str e.msg), ("exit_code", .int (-1))],
        [.create_session session_id,
          .execute_session_command session_id request timeout])
    | .ok r =>
      let output := if pyTruthyStr r.output then r.output.getD "" else ""
      ([("session_id", .str session_id), ("output", .str output),
          ("exit_code", .int r.exit_code)],
        [.create_session session_id,
          .execute_session_command session_id request timeout])

/-- Outcome of `self._daytona.delete(self._sandbox)` for this plugin
instance. -/
inductive DeleteOutcome where
  | ok
  | fault (e : Fault)
deriving DecidableEq

/-- Observable actions of the plugin lifecycle code. -/
inductive PluginEvent where
  | delete_attempt
  | destroy_called
deriving DecidableEq

/-- `DaytonaPlugin` state relevant to the lifecycle claims: the provider
delete behavior and the `self._sandbox` reference (`none` after a successful
teardown). -/
structure DaytonaPlugin where
  deleteBehavior : DeleteOutcome
  sandbox : Option Unit
deriving DecidableEq

/-- `DaytonaPlugin.destroy_sandbox` from src/daytona_adk/plugin.py: guarded by
the truthiness of `self._sandbox`; the reference is cleared after the delete
call inside the `try`, and any fault is caught.  Returns the new state and the
deletion attempts made. -/
def DaytonaPlugin.destroy_sandbox (p : DaytonaPlugin) : DaytonaPlugin × List PluginEvent :=
  match p.sandbox with
  | some _ =>
    match p.deleteBehavior with
    | .ok => ({ p with sandbox := none }, [.delete_attempt])
    | .fault _ => (p, [.delete_attempt])
  | none => (p, [])

/-- `DaytonaPlugin.after_tool_callback` from src/daytona_adk/plugin.py:
destroys the sandbox iff the result mapping contains the key "error"; always
returns `None` (no result override). -/
def DaytonaPlugin.after_tool_callback (p : DaytonaPlugin) (result : ToolResult) :
    (DaytonaPlugin × List PluginEvent) × Option ToolResult :=
  if (result.lookup "error").isSome then
    let d := p.destroy_sandbox
    ((d.1, .destroy_called :: d.2), none)
  else ((p, []), none)

/-- `DaytonaPlugin.close` from src/daytona_adk/plugin.py. -/
def DaytonaPlugin.close (p : DaytonaPlugin) : DaytonaPlugin × List PluginEvent :=
  p.destroy_sandbox

/-- A sandbox behavior on which every operation succeeds with fixed
responses. -/
def okSandbox : SandboxBehavior where
  code_run := fun _ _ _ => .ok { result := "", exit_code := 0 }
  exec := fun _ _ _ _ => .ok { result := "", exit_code := 0 }
  upload_file := fun _ _ => .ok ()
  download_file := fun _ => .ok []
  delete_file := fun _ => .ok ()
  create_session := fun _ => .ok ()
  execute_session_command := fun _ _ _ => .ok { output := some "", exit_code := 0 }

/-- A sandbox behavior on which every operation raises the given fault. -/
def failSandbox (e : Fault) : SandboxBehavior where
  code_run := fun _ _ _ => .error e
  exec := fun _ _ _ _ => .error e
  upload_file := fun _ _ => .error e
  download_file := fun _ => .error e
  delete_file := fun _ => .error e
  create_session := fun _ => .error e
  execute_session_command := fun _ _ _ => .error e

/-- The path of the first uploaded file in a trace: the generated temp-script
path of a javascript/typescript execute-code call. -/
def uploadPathOf (tr : List SandboxCall) : Option String :=
  match tr with
  | .upload_file _ p :: _ => some p
  | _ => none

/-- The three language names accepted by the execute-code tool. -/
def supportedLanguages : List String := ["python", "javascript", "typescript"]

/-- Claim C6: a call to the execute-code tool whose (lowercased) language is
outside the supported set makes no sandbox call and returns exactly the
mapping with the unsupported-language error and exit_code -1. -/
theorem execute_code_unsupported_language (t : ExecuteCodeTool) (args : Args)
    (h : pyLower (args.language.getD "python") ∉ supportedLanguages) :
    t.run_async args
      = ([("error", .str ("Unsupported language: " ++ pyLower (args.language.getD "python"))),
          ("exit_code", .int (-1))], []) := by
  have h1 : ¬ pyLower (args.language.getD "python") = "python" := by
    intro e; exact h (by rw [e]; simp [supportedLanguages])
  have h2 : ¬ (pyLower (args.language.getD "python") = "javascript" ∨
      pyLower (args.language.getD "python") = "typescript") := by
    rintro (e | e) <;> exact h (by rw [e]; simp [supportedLanguages])
  simp only [ExecuteCodeTool.run_async]
  rw [if_neg h1, if_neg h2]

/-- Witness for C6 at language "ruby". -/
theorem execute_code_unsupported_language_witness :
    ExecuteCodeTool.run_async { sandbox := okSandbox, id := 0 }
        { code := some "puts 1", language := some "ruby" }
      = ([("error", .str "Unsupported language: ruby"), ("exit_code", .int (-1))], []) := by
  have h := execute_code_unsupported_language { sandbox := okSandbox, id := 0 }
    { code := some "puts 1", language := some "ruby" } (by decide)
  exact h.trans (by decide)

/-- Claim C9: the execute-code tool matches the language case-insensitively:
results depend on the language argument only through its lowercasing, any
casing whose lowercase is "python" selects the python code-run branch, any
casing lowering to "javascript"/"typescript" selects the script-upload
branch, and the unsupported-language error reports the lowercased form. -/
theorem execute_code_language_case_insensitive :
    (∀ (t : ExecuteCodeTool) (args : Args) (s1 s2 : String), pyLower s1 = pyLower s2 →
      t.run_async { args with language := some s1 }
        = t.run_async { args with language := some s2 }) ∧
    (∀ (t : ExecuteCodeTool) (args : Args) (s : String), pyLower s = "python" →
      ∃ params, (t.run_async { args with language := some s }).2
        = [.code_run (args.code.getD "") params args.timeout]) ∧
    (∀ (t : ExecuteCodeTool) (args : Args) (s : String),
      pyLower s = "javascript" ∨ pyLower s = "typescript" →
      ∃ rest, (t.run_async { args with language := some s }).2
        = .upload_file (utf8Encode (args.code.getD ""))
            ("/tmp/script_" ++ toString t.id ++ "."
              ++ (if pyLower s = "javascript" then "js" else "ts")) :: rest) ∧
    (∀ (t : ExecuteCodeTool) (args : Args) (s : String),
      pyLower s ∉ supportedLanguages →
      (t.run_async { args with language := some s }).1
        = [("error", .str ("Unsupported language: " ++ pyLower s)),
            ("exit_code", .int (-1))]) := by
  refine ⟨?_, ?_, ?_, ?_⟩
  · intro t args s1 s2 h
    simp only [ExecuteCodeTool.run_async, Option.getD_some]
    simp only [h]
  · intro t args s h
    simp only [ExecuteCodeTool.run_async, Option.getD_some]
    rw [if_pos h]
    cases t.sandbox.code_run (args.code.getD "")
        (if pyTruthyDict args.env || pyTruthyList args.argv
          then some { env := args.env, argv := args.argv } else none) args.timeout with
    | ok r => exact ⟨_, rfl⟩
    | error e => exact ⟨_, rfl⟩
  · intro t args s h
    have hnp : ¬ pyLower s = "python" := by
      rcases h with h | h <;> rw [h] <;> decide
    simp only [ExecuteCodeTool.run_async, Option.getD_some]
    rw [if_neg hnp, if_pos h]
    rcases t.sandbox.upload_file (utf8Encode (args.code.getD ""))
        ("/tmp/script_" ++ toString t.id ++ "."
          ++ (if pyLower s = "javascript" then "js" else "ts")) with e | u
    · exact ⟨_, rfl⟩
    · dsimp only
      split
      · exact ⟨_, rfl⟩
      · split
        · exact ⟨_, rfl⟩
        · exact ⟨_, rfl⟩
  · intro t args s h
    have h1 : ¬ pyLower s = "python" := by
      intro e; exact h (by rw [e]; simp [supportedLanguages])
    have h2 : ¬ (pyLower s = "javascript" ∨ pyLower s = "typescript") := by
      rintro (e | e) <;> exact h (by rw [e]; simp [supportedLanguages])
    simp only [ExecuteCodeTool.run_async, Option.getD_some]
    rw [if_neg h1, if_neg h2]

/-- Witness for C9: "PyThOn" behaves exactly like "python". -/
theorem execute_code_language_case_insensitive_witness :
    ExecuteCodeTool.run_async { sandbox := okSandbox, id := 0 }
        { code := some "print(1)", language := some "PyThOn" }
      = ExecuteCodeTool.run_async { sandbox := okSandbox, id := 0 }
        { code := some "print(1)", language := some "python" } := by
  have h := execute_code_language_case_insensitive.1 { sandbox := okSandbox, id := 0 }
    { code := some "print(1)" } "PyThOn" "python" (by decide)
  exact h

/-- A concrete execute-code tool instance over the all-succeeding sandbox. -/
def ecToolA : ExecuteCodeTool := { sandbox := okSandbox, id := 7 }

/-- Counterexample to C3: two distinct javascript calls on the same tool
instance generate the same temporary script path. -/
theorem execute_code_temp_path_collision :
    uploadPathOf (ecToolA.run_async
        { code := some "console.log(1)", language := some "javascript" }).2
      = some "/tmp/script_7.js" ∧
    uploadPathOf (ecToolA.run_async
        { code := some "console.log(2)", language := some "javascript" }).2
      = some "/tmp/script_7.js" := by
  decide

/-- Amended C3: the generated temporary script path is a function of the tool
instance address and the extension only, namely
/tmp/script_<id(self)>.<js|ts>; any two javascript (resp. typescript) calls
on the same tool instance reuse the same path. -/
theorem execute_code_temp_path_per_instance (t : ExecuteCodeTool) (args : Args)
    (h : pyLower (args.language.getD "python") = "javascript" ∨
         pyLower (args.language.getD "python") = "typescript") :
    uploadPathOf (t.run_async args).2
      = some ("/tmp/script_" ++ toString t.id ++ "."
          ++ (if pyLower (args.language.getD "python") = "javascript" then "js" else "ts")) := by
  have hnp : ¬ pyLower (args.language.getD "python") = "python" := by
    rcases h with h | h <;> rw [h] <;> decide
  simp only [ExecuteCodeTool.run_async]
  rw [if_neg hnp, if_pos h]
  split
  · rfl
  · split
    · rfl
    · split
      · rfl
      · rfl

/-- Witness for the amended C3. -/
theorem execute_code_temp_path_per_instance_witness :
    uploadPathOf (ExecuteCodeTool.run_async { sandbox := okSandbox, id := 3 }
        { code := some "x", language := some "typescript" }).2
      = some "/tmp/script_3.ts" := by
  have h := execute_code_temp_path_per_instance { sandbox := okSandbox, id := 3 }
    { code := some "x", language := some "typescript" } (by decide)
  exact h.trans (by decide)

/-- A concrete start-long-running-command tool instance over the
all-succeeding sandbox. -/
def lrToolA : StartLongRunningCommandTool := { sandbox := okSandbox, id := 9 }

/-- Counterexample to C4: two distinct successful calls on the same tool
instance yield the same session_id. -/
theorem start_long_running_session_id_collision :
    (lrToolA.run_async { command := some "npm run dev" }).1.lookup "session_id"
      = some (.str "long-running-9") ∧
    (lrToolA.run_async { command := some "python server.py" }).1.lookup "session_id"
      = some (.str "long-running-9") ∧
    (lrToolA.run_async { command := some "npm run dev" }).1.lookup "error" = none ∧
    (lrToolA.run_async { command := some "python server.py" }).1.lookup "error" = none := by
  decide

/-- Amended C4: every successful call yields session_id
"long-running-<id(self)>": the fixed prefix is "long-running-" on every call,
and the identifier is constant across calls on the same tool instance (unique
per tool-instance-address, not per call). -/
theorem start_long_running_session_id_per_instance (t : StartLongRunningCommandTool)
    (args : Args) (r : SessionResponse)
    (h1 : t.sandbox.create_session ("long-running-" ++ toString t.id) = .ok ())
    (h2 : t.sandbox.execute_session_command ("long-running-" ++ toString t.id)
        { command := args.command.getD "", runAsync := true } args.timeout = .ok r) :
    (t.run_async args).1.lookup "session_id"
      = some (.str ("long-running-" ++ toString t.id)) ∧
    ∃ suffix, "long-running-" ++ toString t.id = "long-running-" ++ suffix := by
  constructor
  · simp only [StartLongRunningCommandTool.run_async]
    rw [h1]
    dsimp only
    rw [h2]
    rfl
  · exact ⟨toString t.id, rfl⟩

/-- Witness for the amended C4. -/
theorem start_long_running_session_id_per_instance_witness :
    (StartLongRunningCommandTool.run_async { sandbox := okSandbox, id := 9 }
        { command := some "npm run dev" }).1.lookup "session_id"
      = some (.str "long-running-9") := by
  have h := start_long_running_session_id_per_instance { sandbox := okSandbox, id := 9 }
    { command := some "npm run dev" } { output := some "", exit_code := 0 } rfl rfl
  exact h.1.trans (by decide)

/-- A plugin whose provider-side delete raises. -/
def faultyPlugin : DaytonaPlugin :=
  { deleteBehavior := .fault { msg := "delete failed" }, sandbox := some () }

/-- Counterexample to C2: when the provider delete raises, destroy_sandbox
leaves the local reference set (the clearing assignment sits after the delete
inside the try block), so a second call performs a second deletion attempt. -/
theorem destroy_sandbox_retries_after_fault :
    faultyPlugin.destroy_sandbox.1.sandbox = some () ∧
    faultyPlugin.destroy_sandbox.1.destroy_sandbox.2 = [.delete_attempt] := by
  decide

/-- Amended C2: destroy_sandbox never propagates the delete fault, and when
the provider delete succeeds (or no sandbox is present) the reference is
cleared and a second call makes no deletion attempt; but when the delete
raises, the reference remains set, so a second call does attempt deletion
again. -/
theorem destroy_sandbox_clears_reference_only_on_success (p : DaytonaPlugin) :
    (p.deleteBehavior = .ok →
      p.destroy_sandbox.1.sandbox = none ∧
      p.destroy_sandbox.1.destroy_sandbox.2 = []) ∧
    (∀ e, p.deleteBehavior = .fault e → p.destroy_sandbox.1 = p) := by
  constructor
  · intro h
    rcases hs : p.sandbox with _ | u
    · simp [DaytonaPlugin.destroy_sandbox, hs]
    · simp [DaytonaPlugin.destroy_sandbox, hs, h]
  · intro e h
    rcases hs : p.sandbox with _ | u
    · simp [DaytonaPlugin.destroy_sandbox, hs]
    · simp [DaytonaPlugin.destroy_sandbox, hs, h]

/-- Witness for the amended C2. -/
theorem destroy_sandbox_clears_reference_only_on_success_witness :
    DaytonaPlugin.destroy_sandbox
        { deleteBehavior := .ok, sandbox := some () } |>.1.sandbox = none := by
  have h := destroy_sandbox_clears_reference_only_on_success
    { deleteBehavior := .ok, sandbox := some () }
  exact (h.1 rfl).1

/-- Claim C5: the after-tool hook always returns no result override, triggers
sandbox destruction exactly when the result mapping contains the key "error",
and leaves the plugin state untouched when it does not. -/
theorem after_tool_callback_destroys_iff_error (p : DaytonaPlugin) (result : ToolResult) :
    ((p.after_tool_callback result).2 = none) ∧
    (PluginEvent.destroy_called ∈ (p.after_tool_callback result).1.2
      ↔ (result.lookup "error").isSome = true) ∧
    ((result.lookup "error").isSome = false →
      (p.after_tool_callback result).1.1 = p ∧ (p.after_tool_callback result).1.2 = []) := by
  by_cases h : (result.lookup "error").isSome
  · refine ⟨?_, ?_, ?_⟩
    · simp [DaytonaPlugin.after_tool_callback, h]
    · simp [DaytonaPlugin.after_tool_callback, h]
    · intro hc
      rw [h] at hc
      cases hc
  · refine ⟨?_, ?_, ?_⟩
    · simp [DaytonaPlugin.after_tool_callback, h]
    · simp [DaytonaPlugin.after_tool_callback, h]
    · intro _
      constructor
      · simp [DaytonaPlugin.after_tool_callback, h]
      · simp [DaytonaPlugin.after_tool_callback, h]

/-- Witness for C5: an error-shaped result triggers destruction, a success
result leaves the plugin untouched. -/
theorem after_tool_callback_destroys_iff_error_witness :
    (PluginEvent.destroy_called ∈
      (DaytonaPlugin.after_tool_callback { deleteBehavior := .ok, sandbox := some () }
        [("error", .str "boom"), ("exit_code", .int (-1))]).1.2) ∧
    ((DaytonaPlugin.after_tool_callback { deleteBehavior := .ok, sandbox := some () }
        [("result", .str "ok"), ("exit_code", .int 0)]).1.1
      = { deleteBehavior := .ok, sandbox := some () }) := by
  constructor
  · exact (after_tool_callback_destroys_iff_error
      { deleteBehavior := .ok, sandbox := some () }
      [("error", .str "boom"), ("exit_code", .int (-1))]).2.1.mpr (by decide)
  · exact ((after_tool_callback_destroys_iff_error
      { deleteBehavior := .ok, sandbox := some () }
      [("result", .str "ok"), ("exit_code", .int 0)]).2.2 (by decide)).1

/-- Claim C8: uploading text content to a path and then reading that path
back — with the sandbox filesystem returning the stored bytes — succeeds and
returns content equal to the original after the UTF-8 round trip. -/
theorem upload_then_read_round_trip (up : UploadFileTool) (rd : ReadFileTool)
    (p c : String)
    (hup : up.sandbox.upload_file (utf8Encode c) p = .ok ())
    (hdown : rd.sandbox.download_file p = .ok (utf8Encode c)) :
    (up.run_async { file_path := some p, content := some c }).1
      = [("success", .bool true), ("path", .str p)] ∧
    (rd.run_async { file_path := some p }).1
      = [("content", .str c), ("path", .str p)] := by
  constructor
  · simp only [UploadFileTool.run_async, Option.getD_some]
    rw [hup]
  · simp only [ReadFileTool.run_async, Option.getD_some]
    rw [hdown]
    dsimp only
    rw [utf8Decode_encode]

/-- The all-succeeding sandbox, except that downloading "/tmp/a.txt" returns
the UTF-8 bytes of "hi". -/
def roundTripSandbox : SandboxBehavior :=
  { okSandbox with
    download_file := fun path =>
      if path = "/tmp/a.txt" then .ok (utf8Encode "hi")
      else .error { msg := "not found" } }

/-- Witness for C8. -/
theorem upload_then_read_round_trip_witness :
    (UploadFileTool.run_async { sandbox := roundTripSandbox }
        { file_path := some "/tmp/a.txt", content := some "hi" }).1
      = [("success", .bool true), ("path", .str "/tmp/a.txt")] ∧
    (ReadFileTool.run_async { sandbox := roundTripSandbox }
        { file_path := some "/tmp/a.txt" }).1
      = [("content", .str "hi"), ("path", .str "/tmp/a.txt")] :=
  upload_then_read_round_trip { sandbox := roundTripSandbox } { sandbox := roundTripSandbox }
    "/tmp/a.txt" "hi" rfl (by rw [roundTripSandbox]; dsimp only; rw [if_pos rfl])

/-- Claim C10: no tool validates its required string arguments locally — an
absent required argument is read back as the empty string (the call behaves
exactly as if the empty string had been passed), and on an otherwise empty
argument mapping every tool still issues its sandbox call instead of
returning a local missing-argument error. -/
theorem tools_default_missing_arguments :
    (∀ (t : ExecuteCodeTool) (args : Args),
      t.run_async { args with code := none } = t.run_async { args with code := some "" }) ∧
    (∀ (t : ExecuteCommandTool) (args : Args),
      t.run_async { args with command := none }
        = t.run_async { args with command := some "" }) ∧
    (∀ (t : UploadFileTool) (args : Args),
      t.run_async { args with file_path := none }
        = t.run_async { args with file_path := some "" } ∧
      t.run_async { args with content := none }
        = t.run_async { args with content := some "" }) ∧
    (∀ (t : ReadFileTool) (args : Args),
      t.run_async { args with file_path := none }
        = t.run_async { args with file_path := some "" }) ∧
    (∀ (t : StartLongRunningCommandTool) (args : Args),
      t.run_async { args with command := none }
        = t.run_async { args with command := some "" }) ∧
    (∀ (t : ExecuteCodeTool), (t.run_async {}).2 ≠ []) ∧
    (∀ (t : ExecuteCommandTool), (t.run_async {}).2 ≠ []) ∧
    (∀ (t : UploadFileTool), (t.run_async {}).2 ≠ []) ∧
    (∀ (t : ReadFileTool), (t.run_async {}).2 ≠ []) ∧
    (∀ (t : StartLongRunningCommandTool), (t.run_async {}).2 ≠ []) := by
  refine ⟨fun t args => rfl, fun t args => rfl, fun t args => ⟨rfl, rfl⟩,
    fun t args => rfl, fun t args => rfl, ?_, ?_, ?_, ?_, ?_⟩
  · intro t
    simp only [ExecuteCodeTool.run_async]
    rw [if_pos (by decide : pyLower ((none : Option String).getD "python") = "python")]
    split <;> simp
  · intro t
    simp only [ExecuteCommandTool.run_async]
    split <;> simp
  · intro t
    simp only [UploadFileTool.run_async]
    split <;> simp
  · intro t
    simp only [ReadFileTool.run_async]
    split
    · split <;> simp
    · simp
  · intro t
    simp only [StartLongRunningCommandTool.run_async]
    split
    · simp
    · split <;> simp

/-- Claim C7: every result mapping of each of the five tools is exactly one
of two shapes: a success shape that does not contain the key "error", or a
failure shape pairing "error" with the sentinel success field of that tool
(exit_code -1, success false, or content null). -/
theorem tool_results_have_exactly_one_shape :
    (∀ (t : ExecuteCodeTool) (args : Args),
      (∃ s n, (t.run_async args).1 = [("result", Value.str s), ("exit_code", Value.int n)] ∧
        ((t.run_async args).1.lookup "error") = none) ∨
      (∃ s, (t.run_async args).1
        = [("error", Value.str s), ("exit_code", Value.int (-1))])) ∧
    (∀ (t : ExecuteCommandTool) (args : Args),
      (∃ s n, (t.run_async args).1 = [("result", Value.str s), ("exit_code", Value.int n)] ∧
        ((t.run_async args).1.lookup "error") = none) ∨
      (∃ s, (t.run_async args).1
        = [("error", Value.str s), ("exit_code", Value.int (-1))])) ∧
    (∀ (t : UploadFileTool) (args : Args),
      (∃ pth, (t.run_async args).1 = [("success", Value.bool true), ("path", Value.str pth)] ∧
        ((t.run_async args).1.lookup "error") = none) ∨
      (∃ s, (t.run_async args).1
        = [("error", Value.str s), ("success", Value.bool false)])) ∧
    (∀ (t : ReadFileTool) (args : Args),
      (∃ cont pth, (t.run_async args).1
          = [("content", Value.str cont), ("path", Value.str pth)] ∧
        ((t.run_async args).1.lookup "error") = none) ∨
      (∃ s, (t.run_async args).1 = [("error", Value.str s), ("content", Value.null)])) ∧
    (∀ (t : StartLongRunningCommandTool) (args : Args),
      (∃ sid out n, (t.run_async args).1
          = [("session_id", Value.str sid), ("output", Value.str out),
              ("exit_code", Value.int n)] ∧
        ((t.run_async args).1.lookup "error") = none) ∨
      (∃ s, (t.run_async args).1
        = [("error", Value.str s), ("exit_code", Value.int (-1))])) := by
  refine ⟨?_, ?_, ?_, ?_, ?_⟩
  · intro t args
    simp only [ExecuteCodeTool.run_async]
    repeat' split
    all_goals first
      | exact Or.inl ⟨_, _, rfl, rfl⟩
      | exact Or.inr ⟨_, rfl⟩
  · intro t args
    simp only [ExecuteCommandTool.run_async]
    repeat' split
    all_goals first
      | exact Or.inl ⟨_, _, rfl, rfl⟩
      | exact Or.inr ⟨_, rfl⟩
  · intro t args
    simp only [UploadFileTool.run_async]
    repeat' split
    all_goals first
      | exact Or.inl ⟨_, rfl, rfl⟩
      | exact Or.inr ⟨_, rfl⟩
  · intro t args
    simp only [ReadFileTool.run_async]
    repeat' split
    all_goals first
      | exact Or.inl ⟨_, _, rfl, rfl⟩
      | exact Or.inr ⟨_, rfl⟩
  · intro t args
    simp only [StartLongRunningCommandTool.run_async]
    repeat' split
    all_goals first
      | exact Or.inl ⟨_, _, _, rfl, rfl⟩
      | exact Or.inr ⟨_, rfl⟩

/-- Claim C1: no tool propagates a sandbox fault: whenever any sandbox call
issued during a run faults, `run_async` still returns, and its result mapping
carries the fault as a string under the key "error". -/
theorem tools_catch_sandbox_faults :
    (∀ (t : ExecuteCodeTool) (args : Args),
      (∃ c ∈ (t.run_async args).2, t.sandbox.callFaults c = true) →
      ∃ s, ((t.run_async args).1.lookup "error") = some (Value.str s)) ∧
    (∀ (t : ExecuteCommandTool) (args : Args),
      (∃ c ∈ (t.run_async args).2, t.sandbox.callFaults c = true) →
      ∃ s, ((t.run_async args).1.lookup "error") = some (Value.str s)) ∧
    (∀ (t : UploadFileTool) (args : Args),
      (∃ c ∈ (t.run_async args).2, t.sandbox.callFaults c = true) →
      ∃ s, ((t.run_async args).1.lookup "error") = some (Value.str s)) ∧
    (∀ (t : ReadFileTool) (args : Args),
      (∃ c ∈ (t.run_async args).2, t.sandbox.callFaults c = true) →
      ∃ s, ((t.run_async args).1.lookup "error") = some (Value.str s)) ∧
    (∀ (t : StartLongRunningCommandTool) (args : Args),
      (∃ c ∈ (t.run_async args).2, t.sandbox.callFaults c = true) →
      ∃ s, ((t.run_async args).1.lookup "error") = some (Value.str s)) := by
  refine ⟨?_, ?_, ?_, ?_, ?_⟩
  · intro t args
    simp only [ExecuteCodeTool.run_async]
    repeat' split
    all_goals intro h
    all_goals
      first
      | exact ⟨_, rfl⟩
      | (rcases h with ⟨c, hc, hf⟩
         simp only [List.mem_cons, List.mem_singleton, List.not_mem_nil, or_false] at hc
         first
         | (rcases hc with hc | hc | hc <;> subst hc <;>
            simp_all [SandboxBehavior.callFaults])
         | (subst hc
            simp_all [SandboxBehavior.callFaults]))
  · intro t args
    simp only [ExecuteCommandTool.run_async]
    repeat' split
    all_goals intro h
    all_goals
      first
      | exact ⟨_, rfl⟩
      | (rcases h with ⟨c, hc, hf⟩
         simp only [List.mem_singleton] at hc
         subst hc
         simp_all [SandboxBehavior.callFaults])
  · intro t args
    simp only [UploadFileTool.run_async]
    repeat' split
    all_goals intro h
    all_goals
      first
      | exact ⟨_, rfl⟩
      | (rcases h with ⟨c, hc, hf⟩
         simp only [List.mem_singleton] at hc
         subst hc
         simp_all [SandboxBehavior.callFaults])
  · intro t args
    simp only [ReadFileTool.run_async]
    repeat' split
    all_goals intro h
    all_goals
      first
      | exact ⟨_, rfl⟩
      | (rcases h with ⟨c, hc, hf⟩
         simp only [List.mem_singleton] at hc
         subst hc
         simp_all [SandboxBehavior.callFaults])
  · intro t args
    simp only [StartLongRunningCommandTool.run_async]
    repeat' split
    all_goals intro h
    all_goals
      first
      | exact ⟨_, rfl⟩
      | (rcases h with ⟨c, hc, hf⟩
         simp only [List.mem_cons, List.mem_singleton, List.not_mem_nil, or_false] at hc
         rcases hc with hc | hc <;> subst hc <;>
           simp_all [SandboxBehavior.callFaults])

/-- Witness for C1: a faulting sandbox still yields an error-shaped result. -/
theorem tools_catch_sandbox_faults_witness :
    ∃ s, ((ExecuteCommandTool.run_async { sandbox := failSandbox { msg := "net down" } }
        { command := some "ls" }).1.lookup "error") = some (Value.str s) :=
  tools_catch_sandbox_faults.2.1 { sandbox := failSandbox { msg := "net down" } }
    { command := some "ls" }
    ⟨.exec "ls" none none none, by decide, by decide⟩

/-- Witness for C10: a missing code argument behaves exactly like an empty
code string. -/
theorem tools_default_missing_arguments_witness :
    ExecuteCodeTool.run_async { sandbox := okSandbox, id := 0 } { code := none }
      = ExecuteCodeTool.run_async { sandbox := okSandbox, id := 0 } { code := some "" } :=
  tools_default_missing_arguments.1 { sandbox := okSandbox, id := 0 } {}
